import Mathlib

/-!
Shallow embedding of the numeric core of two Aspeed BMC drivers:
`drivers/hwmon/aspeed-g6-pwm-tacho.c` (PWM divider search, tachometer
divider search, RPM conversion, PWM waveform programming, thermal
cooling-device state machine) and `drivers/iio/adc/aspeed_adc.c`
(the `write_raw` error paths).

Machine integers are modelled as `Nat` with explicit `% 2^32` where the
C `u32`/`unsigned long` arithmetic can wrap; C `int` values that may be
negative are modelled as `Int`.  Register traffic of the paths under
scrutiny is modelled as an explicit list of write events applied to a
register file `Nat → Nat`.
-/

namespace Aspeed

/-! ## Register-level constants (aspeed-g6-pwm-tacho.c) -/

def PWM_PERIOD_MAX : Nat := 255

def PWM_CLK_ENABLE : Nat := 2 ^ 16

def PWM_PIN_EN : Nat := 2 ^ 12

def PWM_DUTY_LOAD_AS_WDT_EN : Nat := 2 ^ 18

def PWM_LOAD_AS_WDT : Nat := 2 ^ 19

def PWM_PERIOD_BIT : Nat := 24

def PWM_RISING_FALLING_BIT : Nat := 8

def PWM_RISING_RISING_BIT : Nat := 0

def PWM_RISING_FALLING_AS_WDT_BIT : Nat := 16

def TACHO_ENABLE : Nat := 2 ^ 28

def TACHO_IER : Nat := 2 ^ 31

def TACHO_INVERS_LIMIT : Nat := 2 ^ 30

def TACHIO_EDGE_BIT : Nat := 24

def TACHO_CLK_DIV_BIT : Nat := 20

def TACHO_DEBOUNCE_BIT : Nat := 26

def TACHO_VALUE_MASK : Nat := 0xfffff

/-- `ASPEED_PWM_CTRL_CH(x) = x*0x10 + 0x00` -/
def ASPEED_PWM_CTRL_CH (x : Nat) : Nat := x * 0x10

/-- `ASPEED_PWM_DUTY_CYCLE_CH(x) = x*0x10 + 0x04` -/
def ASPEED_PWM_DUTY_CYCLE_CH (x : Nat) : Nat := x * 0x10 + 0x04

/-- `ASPEED_TACHO_CTRL_CH(x) = x*0x10 + 0x08` -/
def ASPEED_TACHO_CTRL_CH (x : Nat) : Nat := x * 0x10 + 0x08

/-! ## PWM divider search
The nested `div_l`/`div_h` loops of `aspeed_set_pwm_channel_fan_ctrl`:

    for (div_l = 0; div_l < 0x100; div_l++) {
      for (div_h = 0; div_h < 0x10; div_h++) {
        if ((cal_freq / (BIT(div_h) * (div_l + 1))) < target_freq) break;
      }
      if ((cal_freq / (BIT(div_h) * (div_l + 1))) < target_freq) break;
    }

The inner loop leaves `div_h` at the first value in `0..15` satisfying the
condition, or at 16 when it runs to completion; the outer loop re-tests the
same condition with that `div_h` and stops at the first `div_l` for which it
holds, or leaves `div_l = 256` (with `div_h` computed for `div_l = 255`). -/

/-- Value of `div_h` after the inner loop for a given `div_l`. -/
def findDivH (cal_freq target div_l : Nat) : Nat :=
  ((List.range 16).find? (fun h => decide (cal_freq / (2 ^ h * (div_l + 1)) < target))).getD 16

/-- The condition re-tested by the outer loop after the inner loop ran. -/
def pwmSearchCond (cal_freq target div_l : Nat) : Bool :=
  decide (cal_freq / (2 ^ (findDivH cal_freq target div_l) * (div_l + 1)) < target)

/-- Final `(div_l, div_h)` of the nested loops. -/
def pwmSearch (cal_freq target : Nat) : Nat × Nat :=
  match (List.range 256).find? (pwmSearchCond cal_freq target) with
  | some l => (l, findDivH cal_freq target l)
  | none => (256, findDivH cal_freq target 255)

/-- The effective PWM frequency stored into `pwm_freq`:
`cal_freq / (BIT(div_h) * (div_l + 1))` with `cal_freq = clk / 256`. -/
def pwmFreq (clk target : Nat) : Nat :=
  (clk / (PWM_PERIOD_MAX + 1)) /
    (2 ^ (pwmSearch (clk / (PWM_PERIOD_MAX + 1)) target).2 *
      ((pwmSearch (clk / (PWM_PERIOD_MAX + 1)) target).1 + 1))

/-! ## Tachometer divider search (`aspeed_set_fan_tach_ch_enable`) -/

/-- `target_div = (clk_freq * 60 / min_rpm * 2) / (0xfffff + 1)`, with the
`u32` multiplications wrapping mod `2^32`. -/
def tachoTargetDiv (clk min_rpm : Nat) : Nat :=
  (clk * 60 % 2 ^ 32 / min_rpm * 2) % 2 ^ 32 / 2 ^ 20

/-- The `(i, divide_val)` pair computed by the enable path: scan
`i = 0..11`, `divide_val = BIT(i)*BIT(i)`, stop at the first
`divide_val > target_div`; with no break the loop leaves `i = 12` and
`divide_val = 4^11`; a zero `target_div` selects `(0, 1)` directly. -/
def tachoDivider (clk min_rpm : Nat) : Nat × Nat :=
  let td := tachoTargetDiv clk min_rpm
  if td = 0 then (0, 1)
  else
    match (List.range 12).find? (fun i => decide (td < 2 ^ i * 2 ^ i)) with
    | some i => (i, 2 ^ i * 2 ^ i)
    | none => (12, 2 ^ 11 * 2 ^ 11)

/-! ## RPM conversion (`aspeed_get_fan_tach_ch_rpm`, after the status poll) -/

/-- RPM computed from the raw status value (`val & TACHO_VALUE_MASK`),
the channel's stored divisor and the source clock:

    raw_data = val & TACHO_VALUE_MASK;
    if (raw_data == 0xfffff) return 0;
    raw_data += 1;
    tach_div = raw_data * divide * multiplier;   // multiplier = 2
    if (raw_data == 0) return 0;
    return clk_source / tach_div * 60;

`raw_data`, `tach_div` and `clk_source` are `u32`, so the two
multiplications building `tach_div` and the final multiplication by 60
wrap mod `2^32` (the division itself cannot wrap). -/
def raw_to_rpm (val divide clk : Nat) : Nat :=
  let raw_data := val % 2 ^ 20
  if raw_data = 0xfffff then 0
  else
    let raw_data := raw_data + 1
    let tach_div := raw_data * divide % 2 ^ 32 * 2 % 2 ^ 32
    if raw_data = 0 then 0
    else clk / tach_div * 60 % 2 ^ 32

/-! ## Register write events and the register file -/

/-- A write to the memory-mapped register block: `regmap_write` or
`regmap_update_bits` (read-modify-write under a mask). -/
inductive RegWrite where
  | write (reg val : Nat)
  | updateBits (reg mask val : Nat)
deriving DecidableEq, Repr

/-- Constructor kind (0 = `write`, 1 = `updateBits`) and target register. -/
def RegWrite.shape : RegWrite → Nat × Nat
  | .write r _ => (0, r)
  | .updateBits r _ _ => (1, r)

/-- Apply one write to a 32-bit register file.
`regmap_update_bits` computes `(orig & ~mask) | (val & mask)`. -/
def applyWrite (regs : Nat → Nat) : RegWrite → (Nat → Nat)
  | .write r v => fun x => if x = r then v else regs x
  | .updateBits r mask v => fun x =>
      if x = r then (regs r &&& ((2 ^ 32 - 1) ^^^ mask)) ||| (v &&& mask) else regs x

/-- Apply a list of writes in order. -/
def applyWrites (regs : Nat → Nat) (ws : List RegWrite) : Nat → Nat :=
  ws.foldl applyWrite regs

/-! ## Per-channel configuration tables -/

/-- `struct aspeed_pwm_channel_params`; the C `int` flags keep their
numeric values and are tested against zero exactly as the source does. -/
structure PwmChannelParams where
  target_freq : Nat
  pwm_freq : Nat
  load_wdt_rising_falling_pt : Nat
  load_wdt_selection : Nat
  load_wdt_enable : Nat
  duty_sync_enable : Nat
  invert_pin : Nat
  rising : Nat
  falling : Nat
deriving DecidableEq, Repr

/-- Entry 0 of `default_pwm_params` (the only entry with
`load_wdt_enable = 1`). -/
def default_pwm_params_ch0 : PwmChannelParams :=
  { target_freq := 25000
    pwm_freq := 0
    load_wdt_rising_falling_pt := 0x10
    load_wdt_selection := 0
    load_wdt_enable := 1
    duty_sync_enable := 0
    invert_pin := 0
    rising := 0x00
    falling := PWM_PERIOD_MAX }

/-- The `default_pwm_params` table: entries 1..15 differ from entry 0 only
in `load_wdt_enable = 0`. -/
def default_pwm_params (ch : Nat) : PwmChannelParams :=
  if ch = 0 then default_pwm_params_ch0
  else { default_pwm_params_ch0 with load_wdt_enable := 0 }

/-- `struct aspeed_tacho_channel_params`. -/
structure TachoChannelParams where
  min_rpm : Nat
  limited_inverse : Nat
  threshold : Nat
  tacho_edge : Nat
  tacho_debounce : Nat
  divide : Nat
deriving DecidableEq, Repr

/-- Every entry of `default_tacho_params` is this record
(`F2F_EDGES = 0`, `divide = 8`). -/
def default_tacho_params : TachoChannelParams :=
  { min_rpm := 2900
    limited_inverse := 0
    threshold := 0
    tacho_edge := 0
    tacho_debounce := 0
    divide := 8 }

/-! ## PWM channel enable / waveform programming -/

/-- `aspeed_set_pwm_channel_enable`: one `regmap_update_bits` over the
clock-enable and pin-enable bits. -/
def setPwmChannelEnable (ch : Nat) (enable : Bool) : List RegWrite :=
  [RegWrite.updateBits (ASPEED_PWM_CTRL_CH ch) (PWM_CLK_ENABLE ||| PWM_PIN_EN)
    (if enable then PWM_CLK_ENABLE ||| PWM_PIN_EN else 0)]

/-- `aspeed_set_pwm_channel_fan_ctrl`: returns the updated channel
parameters and the register writes performed, in program order. -/
def setPwmChannelFanCtrl (clk : Nat) (p : PwmChannelParams) (ch fan_ctrl : Nat) :
    PwmChannelParams × List RegWrite :=
  if fan_ctrl = 0 then
    (p, setPwmChannelEnable ch false)
  else
    let cal_freq := clk / (PWM_PERIOD_MAX + 1)
    let div_l := (pwmSearch cal_freq p.target_freq).1
    let div_h := (pwmSearch cal_freq p.target_freq).2
    let p' := { p with pwm_freq := cal_freq / (2 ^ div_h * (div_l + 1)) }
    let ctrl_value := (div_h <<< 8) ||| div_l
    let duty_value := (PWM_PERIOD_MAX <<< PWM_PERIOD_BIT) |||
      (0 <<< PWM_RISING_RISING_BIT) ||| (fan_ctrl <<< PWM_RISING_FALLING_BIT)
    let ctrl_value :=
      if p.load_wdt_enable ≠ 0 then ctrl_value ||| PWM_DUTY_LOAD_AS_WDT_EN else ctrl_value
    let ctrl_value :=
      if p.load_wdt_enable ≠ 0 ∧ p.load_wdt_selection ≠ 0 then
        ctrl_value ||| PWM_LOAD_AS_WDT
      else ctrl_value
    let duty_value :=
      if p.load_wdt_enable ≠ 0 then
        duty_value ||| (p.load_wdt_rising_falling_pt <<< PWM_RISING_FALLING_AS_WDT_BIT)
      else duty_value
    (p', RegWrite.write (ASPEED_PWM_DUTY_CYCLE_CH ch) duty_value ::
         RegWrite.write (ASPEED_PWM_CTRL_CH ch) ctrl_value ::
         setPwmChannelEnable ch true)

/-! ## Tachometer channel enable (`aspeed_set_fan_tach_ch_enable`, enable path) -/

/-- The control-register value assembled by the enable path, given the
channel parameters and the divider exponent `i` already computed. -/
def tachoCtrlRegValue (t : TachoChannelParams) (i : Nat) : Nat :=
  let reg_value := TACHO_ENABLE ||| (t.tacho_edge <<< TACHIO_EDGE_BIT) |||
    (i <<< TACHO_CLK_DIV_BIT) ||| (t.tacho_debounce <<< TACHO_DEBOUNCE_BIT)
  let reg_value := if t.limited_inverse ≠ 0 then reg_value ||| TACHO_INVERS_LIMIT else reg_value
  if t.threshold ≠ 0 then reg_value ||| TACHO_IER ||| t.threshold else reg_value

/-- The enable path: recompute the divider from `min_rpm`, persist it in
`divide`, and write the assembled control register. -/
def setFanTachChEnable (clk : Nat) (t : TachoChannelParams) (ch : Nat) :
    TachoChannelParams × List RegWrite :=
  let i := (tachoDivider clk t.min_rpm).1
  let divide_val := (tachoDivider clk t.min_rpm).2
  let t' := { t with divide := divide_val }
  (t', [RegWrite.write (ASPEED_TACHO_CTRL_CH ch) (tachoCtrlRegValue t' i)])

/-! ## Thermal cooling device (`aspeed_pwm_cz_set_cur_state`) -/

/-- `struct aspeed_cooling_device` (the fields the state machine uses). -/
structure CoolingDevice where
  max_state : Nat
  cur_state : Nat
  cooling_levels : List Nat
  pwm_channel : Nat
deriving DecidableEq, Repr

/-- The parts of `struct aspeed_pwm_tachometer_data` the cooling path
touches: the clock rate, the PWM channel table and the register file. -/
structure PwmSystem where
  clk : Nat
  pwm_channel : Nat → PwmChannelParams
  regs : Nat → Nat

/-- Error results (`-EINVAL` is the out-of-range rejection). -/
inductive CzError where
  | OutOfRange
deriving DecidableEq, Repr

/-- `aspeed_pwm_cz_set_cur_state`: reject `state > max_state` untouched;
otherwise store `cur_state`, store the channel's falling point from
`cooling_levels[cur_state]` and run the waveform programmer with it. -/
def setCurState (cdev : CoolingDevice) (sys : PwmSystem) (state : Nat) :
    Option CzError × CoolingDevice × PwmSystem :=
  if cdev.max_state < state then (some CzError.OutOfRange, cdev, sys)
  else
    let cdev' := { cdev with cur_state := state }
    let level := cdev'.cooling_levels.getD cdev'.cur_state 0
    let ch := cdev'.pwm_channel
    let p1 := { sys.pwm_channel ch with falling := level }
    let p2 := (setPwmChannelFanCtrl sys.clk p1 ch level).1
    let ws := (setPwmChannelFanCtrl sys.clk p1 ch level).2
    (none, cdev',
      { sys with
        pwm_channel := fun c => if c = ch then p2 else sys.pwm_channel c
        regs := applyWrites sys.regs ws })

end Aspeed

namespace AspeedAdc

/-! ## ADC (`aspeed_adc.c`): `write_raw` error paths -/

def ASPEED_CLOCKS_PER_SAMPLE : Nat := 12

/-- The model-specific bounds of `struct aspeed_adc_model_data`. -/
structure AdcModelData where
  min_sampling_rate : Nat
  max_sampling_rate : Nat
  vref_voltage : Nat
deriving DecidableEq, Repr

def ast2400_model_data : AdcModelData :=
  { min_sampling_rate := 10000, max_sampling_rate := 500000, vref_voltage := 2500 }

def ast2500_model_data : AdcModelData :=
  { min_sampling_rate := 1, max_sampling_rate := 1000000, vref_voltage := 1800 }

def ast2600_model_data : AdcModelData :=
  { min_sampling_rate := 1, max_sampling_rate := 1000000, vref_voltage := 1800 }

/-- The `info_mask` cases `aspeed_adc_write_raw` switches on. -/
inductive IioMask where
  | raw
  | scale
  | sampFreq
  | other
deriving DecidableEq, Repr

/-- The mutable state `write_raw` could touch: the scaler clock rate. -/
structure AdcState where
  scaler_clk_rate : Nat
deriving DecidableEq, Repr

/-- `aspeed_adc_write_raw`: result code (0 success, `-22` = `-EINVAL`,
`-1` = `-EPERM`) and the state after the call.  The C comparison
`val < min || val > max` compares the `int` value against `unsigned int`
bounds, so `val` is converted to its unsigned 32-bit image first. -/
def aspeed_adc_write_raw (md : AdcModelData) (st : AdcState) (val : Int) (mask : IioMask) :
    Int × AdcState :=
  match mask with
  | IioMask.sampFreq =>
      if (val % 2 ^ 32).toNat < md.min_sampling_rate ∨
          md.max_sampling_rate < (val % 2 ^ 32).toNat then
        (-22, st)
      else
        (0, { st with
          scaler_clk_rate := (val % 2 ^ 32).toNat * ASPEED_CLOCKS_PER_SAMPLE % 2 ^ 32 })
  | IioMask.scale => (-1, st)
  | IioMask.raw => (-1, st)
  | IioMask.other => (-22, st)

end AspeedAdc

namespace Aspeed

/-! ## Concrete instances used by witnesses -/

/-- A cooling device with three levels, as built by
`aspeed_create_pwm_cooling` from a three-entry `cooling-levels` table. -/
def cdev0 : CoolingDevice :=
  { max_state := 2, cur_state := 0, cooling_levels := [0, 100, 255], pwm_channel := 0 }

/-- A device instance with the default channel table, a 24 MHz source
clock and an all-zero register file. -/
def sys0 : PwmSystem :=
  { clk := 24000000, pwm_channel := default_pwm_params, regs := fun _ => 0 }

/-! ## Theorems -/

/-- C2 counterexample: with the enable-path divisor 4096 (stored for
`min_rpm = 1` at 24 MHz) and raw value `0x80000`, the u32 denominator
`0x80001 * 4096 * 2` wraps to 8192, so the driver returns 175740 while
the reference formula — computed without wrapping — gives 0. -/
theorem raw_to_rpm_not_reference :
    tachoDivider 24000000 1 = (6, 4096) ∧
    raw_to_rpm 0x80000 4096 24000000 = 175740 ∧
    24000000 / ((0x80000 + 1) * 4096 * 2) * 60 = 0 ∧
    raw_to_rpm 0x80000 4096 24000000 ≠ 24000000 / ((0x80000 + 1) * 4096 * 2) * 60 := by
  decide

/-- C2 (amended): a raw value of `0xFFFFF` yields 0 for any divisor and
clock; for any other raw value, whenever the u32 arithmetic does not wrap
— both the denominator `(raw + 1) * divisor * 2` and the result
`(clk / denominator) * 60` are below `2^32` — the result is
`clk / ((raw + 1) * divisor * 2) * 60`, with the integer division
performed before the multiplication by 60. -/
theorem raw_to_rpm_reference (raw divide clk : Nat) (h : raw ≤ 0xfffff) :
    (raw = 0xfffff → raw_to_rpm raw divide clk = 0) ∧
    (raw ≠ 0xfffff → (raw + 1) * divide * 2 < 2 ^ 32 →
      clk / ((raw + 1) * divide * 2) * 60 < 2 ^ 32 →
      raw_to_rpm raw divide clk = clk / ((raw + 1) * divide * 2) * 60) := by
  have hm : raw % 2 ^ 20 = raw := Nat.mod_eq_of_lt (by omega)
  constructor
  · intro he
    simp only [raw_to_rpm]
    rw [hm, if_pos he]
  · intro hne hden hres
    simp only [raw_to_rpm]
    rw [hm, if_neg hne, if_neg (Nat.succ_ne_zero raw)]
    have h1 : (raw + 1) * divide % 2 ^ 32 = (raw + 1) * divide :=
      Nat.mod_eq_of_lt (by omega)
    rw [h1, Nat.mod_eq_of_lt hden, Nat.mod_eq_of_lt hres]

theorem raw_to_rpm_reference_witness :
    ((1000 : Nat) ≤ 0xfffff ∧
      (1000 ≠ 0xfffff → (1000 + 1) * 8 * 2 < 2 ^ 32 →
        24000000 / ((1000 + 1) * 8 * 2) * 60 < 2 ^ 32 →
        raw_to_rpm 1000 8 24000000 = 24000000 / ((1000 + 1) * 8 * 2) * 60)) ∧
    ((0xfffff : Nat) ≤ 0xfffff ∧
      (0xfffff = 0xfffff → raw_to_rpm 0xfffff 8 24000000 = 0)) :=
  ⟨⟨by decide, (raw_to_rpm_reference 1000 8 24000000 (by decide)).2⟩,
   ⟨by decide, (raw_to_rpm_reference 0xfffff 8 24000000 (by decide)).1⟩⟩

/-- C5 counterexample: with the enable-path divisor 4096 (stored for
`min_rpm = 1` at 24 MHz), raw value `0x7FFFE` yields RPM 0 (denominator
4294959104, no wrap) but the larger raw value `0x80000` yields RPM 175740
(denominator wrapped to 8192), so the conversion is not monotonically
non-increasing in the raw value. -/
theorem raw_to_rpm_not_antitone :
    tachoDivider 24000000 1 = (6, 4096) ∧
    (0x7fffe : Nat) ≤ 0x80000 ∧ (0x80000 : Nat) ≤ 0xfffff ∧
    raw_to_rpm 0x7fffe 4096 24000000 = 0 ∧
    raw_to_rpm 0x80000 4096 24000000 = 175740 ∧
    ¬ raw_to_rpm 0x80000 4096 24000000 ≤ raw_to_rpm 0x7fffe 4096 24000000 := by
  decide

/-- C5 (amended): for a fixed divisor and clock, the RPM conversion is
monotonically non-increasing in the raw counter value over the 20-bit
domain, the `0xFFFFF` sentinel included, whenever the u32 arithmetic does
not wrap: the largest denominator `(b + 1) * divisor * 2` and the largest
result `(clk / ((a + 1) * divisor * 2)) * 60` are below `2^32`. -/
theorem raw_to_rpm_antitone (divide clk a b : Nat) (hab : a ≤ b) (hb : b ≤ 0xfffff)
    (hden : (b + 1) * divide * 2 < 2 ^ 32)
    (hres : clk / ((a + 1) * divide * 2) * 60 < 2 ^ 32) :
    raw_to_rpm b divide clk ≤ raw_to_rpm a divide clk := by
  have hbm : b % 2 ^ 20 = b := Nat.mod_eq_of_lt (by omega)
  have ham : a % 2 ^ 20 = a := Nat.mod_eq_of_lt (by omega)
  by_cases hbe : b = 0xfffff
  · simp [raw_to_rpm, hbm, hbe]
  · have hae : a ≠ 0xfffff := by omega
    simp only [raw_to_rpm, hbm, ham, if_neg hbe, if_neg hae,
      if_neg (Nat.succ_ne_zero b), if_neg (Nat.succ_ne_zero a)]
    rcases Nat.eq_zero_or_pos divide with hd | hd
    · subst hd
      simp
    · have hmono1 : (a + 1) * divide ≤ (b + 1) * divide :=
        Nat.mul_le_mul (by omega) (le_refl divide)
      have hb1 : (b + 1) * divide % 2 ^ 32 = (b + 1) * divide :=
        Nat.mod_eq_of_lt (by omega)
      have ha1 : (a + 1) * divide % 2 ^ 32 = (a + 1) * divide :=
        Nat.mod_eq_of_lt (by omega)
      have ha2 : (a + 1) * divide * 2 % 2 ^ 32 = (a + 1) * divide * 2 :=
        Nat.mod_eq_of_lt (by omega)
      rw [hb1, ha1, Nat.mod_eq_of_lt hden, ha2]
      have h2 : 0 < (a + 1) * divide * 2 :=
        Nat.mul_pos (Nat.mul_pos (Nat.succ_pos a) hd) (by norm_num)
      have hle : clk / ((b + 1) * divide * 2) * 60 ≤ clk / ((a + 1) * divide * 2) * 60 :=
        Nat.mul_le_mul
          (Nat.div_le_div_left (Nat.mul_le_mul hmono1 (le_refl 2)) h2) (le_refl 60)
      rw [Nat.mod_eq_of_lt hres, Nat.mod_eq_of_lt (lt_of_le_of_lt hle hres)]
      exact hle

theorem raw_to_rpm_antitone_witness :
    (100 : Nat) ≤ 0xfffff ∧ (0xfffff : Nat) ≤ 0xfffff ∧
    ((0xfffff : Nat) + 1) * 8 * 2 < 2 ^ 32 ∧
    24000000 / ((100 + 1) * 8 * 2) * 60 < 2 ^ 32 ∧
    raw_to_rpm 0xfffff 8 24000000 ≤ raw_to_rpm 100 8 24000000 :=
  ⟨by decide, by decide, by decide, by decide,
    raw_to_rpm_antitone 8 24000000 100 0xfffff (by decide) (by decide)
      (by decide) (by decide)⟩

/-- C10: the division by zero at the failing input: enabling a fan channel
with `min_rpm = 1` at 24 MHz stores divisor 4096, and at raw value
`0x7FFFF` the datum passes the sentinel test, the post-increment zero
guard does not fire (`raw + 1 = 0x80000 ≠ 0`), yet the u32 denominator
`0x80000 * 4096 * 2` wraps to exactly 0 (the unwrapped product is `2^32`),
so `clk_source / tach_div` divides by zero. -/
theorem rpm_division_by_zero_reachable :
    tachoDivider 24000000 1 = (6, 4096) ∧
    (0x7ffff : Nat) % 2 ^ 20 ≠ 0xfffff ∧
    (0x7ffff : Nat) + 1 ≠ 0 ∧
    ((0x7ffff : Nat) + 1) * 4096 % 2 ^ 32 * 2 % 2 ^ 32 = 0 ∧
    ((0x7ffff : Nat) + 1) * 4096 * 2 = 2 ^ 32 ∧
    raw_to_rpm 0x7ffff 4096 24000000 = 24000000 / 0 * 60 % 2 ^ 32 := by
  decide

/-- C3 counterexample: with a 24 MHz clock and minimum RPM 2900, the code
does not select exponent 3 with divisor 64. -/
theorem tacho_divider_scenario_counterexample :
    tachoDivider 24000000 2900 ≠ (3, 64) := by decide

/-- C3 (amended): with a 24 MHz clock and minimum RPM 2900, the integer
computation `(24000000 * 60 / 2900 * 2) / 2^20` yields 0 (993102 / 2^20),
so the zero-divisor branch selects exponent 0 with divisor 1. -/
theorem tacho_divider_scenario :
    tachoTargetDiv 24000000 2900 = 0 ∧ tachoDivider 24000000 2900 = (0, 1) := by
  decide

/-- C4: for every 32-bit source clock and nonzero minimum RPM, the divider
exponent programmed into the 4-bit field of the tacho control register is
at most 11. -/
theorem tacho_divider_exponent_le_11 (clk min_rpm : Nat)
    (hclk : clk < 2 ^ 32) (hrpm : 1 ≤ min_rpm) :
    (tachoDivider clk min_rpm).1 ≤ 11 := by
  have htd : tachoTargetDiv clk min_rpm < 4096 := by
    unfold tachoTargetDiv
    set X := (clk * 60 % 2 ^ 32 / min_rpm * 2) % 2 ^ 32 with hX
    have h1 : X < 2 ^ 32 := Nat.mod_lt _ (by norm_num)
    omega
  simp only [tachoDivider]
  split
  · decide
  · split
    · rename_i i hf
      have hi := List.mem_range.mp (List.mem_of_find?_eq_some hf)
      show i ≤ 11
      omega
    · rename_i hf
      have h6 := List.find?_eq_none.mp hf 6 (by simp)
      simp only [decide_eq_true_eq] at h6
      norm_num at h6
      omega

/-- C1 counterexample: at source clock 25600 Hz and target 35 Hz the search
stops at `(div_l, div_h) = (0, 2)` with effective frequency 25, yet the
ladder pair `(div_l, div_h) = (2, 0)` yields frequency 33, which is also at
most the target and strictly larger — so the selected frequency is not
maximal among the ladder's frequencies at most the target. -/
theorem pwm_divider_search_not_maximal :
    pwmSearch (25600 / 256) 35 = (0, 2) ∧ pwmFreq 25600 35 = 25 ∧
    25600 / 256 / (2 ^ 0 * (2 + 1)) = 33 ∧ (33 : Nat) ≤ 35 ∧
    pwmFreq 25600 35 < 33 := by
  decide

/-- C1 (amended): for every 32-bit source clock and positive target, the
nested `div_l`/`div_h` search stops at the first pair (ascending `div_l`,
then `div_h`) whose effective frequency is strictly below the target, so
the stored effective frequency is below (hence at most) the target; it
need not be the maximal ladder frequency at most the target. -/
theorem pwm_divider_freq_below_target (clk target : Nat)
    (hclk : clk < 2 ^ 32) (ht : 1 ≤ target) :
    pwmFreq clk target < target := by
  have hcal : clk / (PWM_PERIOD_MAX + 1) ≤ 16777215 := by
    simp only [PWM_PERIOD_MAX]
    omega
  set cal := clk / (PWM_PERIOD_MAX + 1) with hc
  have hcond255 : pwmSearchCond cal target 255 = true := by
    unfold pwmSearchCond findDivH
    cases hf : (List.range 16).find?
        (fun h => decide (cal / (2 ^ h * (255 + 1)) < target)) with
    | some h =>
        simp only [Option.getD_some]
        simpa using List.find?_some hf
    | none =>
        simp only [Option.getD_none]
        have h0 : cal / (2 ^ 16 * (255 + 1)) = 0 := by
          apply Nat.div_eq_of_lt
          norm_num
          omega
        have hlt : cal / (2 ^ 16 * (255 + 1)) < target := by
          rw [h0]
          omega
        exact decide_eq_true hlt
  unfold pwmFreq pwmSearch
  rw [← hc]
  cases hf : (List.range 256).find? (pwmSearchCond cal target) with
  | some l =>
      have h1 := List.find?_some hf
      unfold pwmSearchCond at h1
      simpa using h1
  | none =>
      exact absurd hcond255 (by simpa using List.find?_eq_none.mp hf 255 (by simp))

theorem pwm_divider_freq_below_target_witness :
    24000000 < 2 ^ 32 ∧ 1 ≤ 25000 ∧ pwmFreq 24000000 25000 < 25000 :=
  ⟨by norm_num, by norm_num,
    pwm_divider_freq_below_target 24000000 25000 (by norm_num) (by norm_num)⟩

/-- C7: programming a zero falling point performs exactly one write — the
`regmap_update_bits` that clears the clock-enable and pin-enable bits —
leaves the channel parameters untouched, and whatever the prior register
contents, the enable bits of the channel's control register read back as
zero afterwards. -/
theorem pwm_fan_ctrl_zero_disables (clk : Nat) (p : PwmChannelParams) (ch : Nat) :
    setPwmChannelFanCtrl clk p ch 0 =
      (p, [RegWrite.updateBits (ASPEED_PWM_CTRL_CH ch) (PWM_CLK_ENABLE ||| PWM_PIN_EN) 0]) ∧
    ∀ regs : Nat → Nat,
      applyWrites regs (setPwmChannelFanCtrl clk p ch 0).2 (ASPEED_PWM_CTRL_CH ch) &&&
        (PWM_CLK_ENABLE ||| PWM_PIN_EN) = 0 := by
  constructor
  · rfl
  · intro regs
    simp only [setPwmChannelFanCtrl, setPwmChannelEnable, if_pos rfl, applyWrites,
      List.foldl, applyWrite, if_true, Bool.false_eq_true, if_false]
    rw [Nat.zero_and, Nat.or_zero, Nat.land_assoc]
    have hC : ((2 ^ 32 - 1) ^^^ (PWM_CLK_ENABLE ||| PWM_PIN_EN)) &&&
        (PWM_CLK_ENABLE ||| PWM_PIN_EN) = 0 := by decide
    rw [hC, Nat.and_zero]

/-- C8: with a nonzero falling point the programmer's register traffic is
exactly, in order: a write of the duty-cycle register, a write of the
control register, and last the enable-bit update; the enable update is the
final event, after both registers of the invocation were written. -/
theorem pwm_fan_ctrl_write_order (clk : Nat) (p : PwmChannelParams) (ch fan_ctrl : Nat)
    (h : fan_ctrl ≠ 0) :
    ((setPwmChannelFanCtrl clk p ch fan_ctrl).2).map RegWrite.shape =
      [(0, ASPEED_PWM_DUTY_CYCLE_CH ch), (0, ASPEED_PWM_CTRL_CH ch),
        (1, ASPEED_PWM_CTRL_CH ch)] ∧
    ((setPwmChannelFanCtrl clk p ch fan_ctrl).2).drop 2 = setPwmChannelEnable ch true := by
  simp [setPwmChannelFanCtrl, setPwmChannelEnable, h, RegWrite.shape]

theorem pwm_fan_ctrl_write_order_witness :
    (128 : Nat) ≠ 0 ∧
    ((setPwmChannelFanCtrl 24000000 default_pwm_params_ch0 0 128).2).map RegWrite.shape =
      [(0, ASPEED_PWM_DUTY_CYCLE_CH 0), (0, ASPEED_PWM_CTRL_CH 0),
        (1, ASPEED_PWM_CTRL_CH 0)] ∧
    ((setPwmChannelFanCtrl 24000000 default_pwm_params_ch0 0 128).2).drop 2 =
      setPwmChannelEnable 0 true :=
  ⟨by decide,
    (pwm_fan_ctrl_write_order 24000000 default_pwm_params_ch0 0 128 (by decide)).1,
    (pwm_fan_ctrl_write_order 24000000 default_pwm_params_ch0 0 128 (by decide)).2⟩

theorem tacho_divider_exponent_le_11_witness :
    24000000 < 2 ^ 32 ∧ 1 ≤ 2900 ∧ (tachoDivider 24000000 2900).1 ≤ 11 :=
  ⟨by norm_num, by norm_num,
    tacho_divider_exponent_le_11 24000000 2900 (by norm_num) (by norm_num)⟩

/-- Helper: the waveform programmer never changes the stored falling point
(it only updates `pwm_freq`). -/
theorem setPwmChannelFanCtrl_falling (clk : Nat) (p : PwmChannelParams) (ch f : Nat) :
    (setPwmChannelFanCtrl clk p ch f).1.falling = p.falling := by
  unfold setPwmChannelFanCtrl
  split <;> rfl

/-- C6: a cooling state above `max_state` is rejected with `OutOfRange`,
leaving the cooling device, the channel table and the register file exactly
as they were; a state within range succeeds, stores `cur_state = s`, stores
`cooling_levels[s]` as the channel's falling point, and applies precisely
the register writes of the waveform programmer invoked with that level. -/
theorem set_cur_state_spec (cdev : CoolingDevice) (sys : PwmSystem) (s : Nat) :
    (cdev.max_state < s →
      setCurState cdev sys s = (some CzError.OutOfRange, cdev, sys)) ∧
    (s ≤ cdev.max_state →
      (setCurState cdev sys s).1 = none ∧
      (setCurState cdev sys s).2.1 = { cdev with cur_state := s } ∧
      ((setCurState cdev sys s).2.2.pwm_channel cdev.pwm_channel).falling =
        cdev.cooling_levels.getD s 0 ∧
      (setCurState cdev sys s).2.2.regs =
        applyWrites sys.regs
          (setPwmChannelFanCtrl sys.clk
            { sys.pwm_channel cdev.pwm_channel with
                falling := cdev.cooling_levels.getD s 0 }
            cdev.pwm_channel (cdev.cooling_levels.getD s 0)).2) := by
  constructor
  · intro hgt
    simp [setCurState, hgt]
  · intro hle
    have hn : ¬ cdev.max_state < s := by omega
    refine ⟨by simp [setCurState, hn], by simp [setCurState, hn], ?_,
      by simp [setCurState, hn]⟩
    simp only [setCurState, if_neg hn, if_pos rfl, if_true]
    rw [setPwmChannelFanCtrl_falling]

theorem set_cur_state_spec_witness :
    (cdev0.max_state < 5 ∧
      setCurState cdev0 sys0 5 = (some CzError.OutOfRange, cdev0, sys0)) ∧
    (1 ≤ cdev0.max_state ∧
      (setCurState cdev0 sys0 1).1 = none ∧
      (setCurState cdev0 sys0 1).2.1 = { cdev0 with cur_state := 1 } ∧
      ((setCurState cdev0 sys0 1).2.2.pwm_channel cdev0.pwm_channel).falling =
        cdev0.cooling_levels.getD 1 0) :=
  ⟨⟨by decide, (set_cur_state_spec cdev0 sys0 5).1 (by decide)⟩,
   ⟨by decide,
    ((set_cur_state_spec cdev0 sys0 1).2 (by decide)).1,
    ((set_cur_state_spec cdev0 sys0 1).2 (by decide)).2.1,
    ((set_cur_state_spec cdev0 sys0 1).2 (by decide)).2.2.1⟩⟩

end Aspeed

namespace AspeedAdc

/-- C9: for each supported model, writing a sample frequency below the
model's minimum or above its maximum returns `-EINVAL` with the clock state
untouched, and any write of the raw or scale attributes returns `-EPERM`,
also with the state untouched. -/
theorem adc_write_raw_error_paths (md : AdcModelData) (st : AdcState) (val : Int)
    (hmd : md = ast2400_model_data ∨ md = ast2500_model_data ∨ md = ast2600_model_data)
    (hlo : -(2 ^ 31) ≤ val) (hhi : val < 2 ^ 31) :
    ((val < (md.min_sampling_rate : Int) ∨ (md.max_sampling_rate : Int) < val) →
      aspeed_adc_write_raw md st val IioMask.sampFreq = (-22, st)) ∧
    aspeed_adc_write_raw md st val IioMask.scale = (-1, st) ∧
    aspeed_adc_write_raw md st val IioMask.raw = (-1, st) := by
  refine ⟨?_, rfl, rfl⟩
  intro hrange
  have hcond : (val % 2 ^ 32).toNat < md.min_sampling_rate ∨
      md.max_sampling_rate < (val % 2 ^ 32).toNat := by
    rcases hmd with hm | hm | hm <;> subst hm <;>
      simp only [ast2400_model_data, ast2500_model_data, ast2600_model_data] at hrange ⊢ <;>
      omega
  simp only [aspeed_adc_write_raw]
  rw [if_pos hcond]

theorem adc_write_raw_error_paths_witness :
    ((5 : Int) < (ast2400_model_data.min_sampling_rate : Int) ∧
      aspeed_adc_write_raw ast2400_model_data ⟨1000⟩ 5 IioMask.sampFreq = (-22, ⟨1000⟩)) ∧
    aspeed_adc_write_raw ast2400_model_data ⟨1000⟩ 5 IioMask.scale = (-1, ⟨1000⟩) ∧
    aspeed_adc_write_raw ast2400_model_data ⟨1000⟩ 5 IioMask.raw = (-1, ⟨1000⟩) :=
  ⟨⟨by decide,
    (adc_write_raw_error_paths ast2400_model_data ⟨1000⟩ 5 (Or.inl rfl)
      (by decide) (by decide)).1 (Or.inl (by decide))⟩,
   (adc_write_raw_error_paths ast2400_model_data ⟨1000⟩ 5 (Or.inl rfl)
      (by decide) (by decide)).2.1,
   (adc_write_raw_error_paths ast2400_model_data ⟨1000⟩ 5 (Or.inl rfl)
      (by decide) (by decide)).2.2⟩

end AspeedAdc
